import Mathlib

/-!
Verification development for the S2T accelerators MCP server.

The definitions below are a shallow embedding of the TypeScript sources:
  - src/handlers.ts           (per-operation handlers: validation + payload)
  - server-setup.ts           (createApiClient, createMcpServer dispatcher)
  - src/http-server.ts        (CORS middleware, session stores, shutdown)

JavaScript's loosely typed argument bags are modelled by the `JVal` type,
with `undef` standing for the absent/`undefined` case, and JS truthiness
(`||` defaulting, `??` defaulting) modelled explicitly.
-/

namespace S2T

/-- A JavaScript-ish value, as found in a raw tool-call argument bag.
`undef` models JavaScript `undefined` (an absent property);
`null` models JSON null. -/
inductive JVal where
  | str (s : String)
  | num (n : Int)
  | bool (b : Bool)
  | arr (xs : List JVal)
  | null
  | undef

/-- JavaScript truthiness of a value: empty strings, zero, `false`,
`null` and `undefined` are falsy; arrays are always truthy. -/
def JVal.truthy : JVal → Bool
  | .str s => s ≠ ""
  | .num n => n ≠ 0
  | .bool b => b
  | .arr _ => true
  | .null => false
  | .undef => false

/-- The check pattern `!args.x || typeof args.x !== "string"` used by the
validating handlers in src/handlers.ts passes exactly on non-empty strings. -/
def JVal.isNonEmptyString : JVal → Bool
  | .str s => s ≠ ""
  | _ => false

/-- JavaScript `x || d`: keep `x` when truthy, otherwise use default `d`. -/
def JVal.orDefault (v d : JVal) : JVal :=
  if v.truthy then v else d

/-- JavaScript `x ?? d`: keep `x` unless it is `null`/`undefined`. -/
def JVal.nullishDefault (v d : JVal) : JVal :=
  match v with
  | .null => d
  | .undef => d
  | w => w

/-- A raw argument bag (`Record<string, unknown>`): property name to value. -/
abbrev ArgBag := List (String × JVal)

/-- Property access `args.k` on an argument bag: the first binding of `k`,
or `undefined` when the property is absent. -/
def getArg (b : ArgBag) (k : String) : JVal :=
  ((b.find? (fun p => p.1 == k)).map (fun p => p.2)).getD (JVal.undef)

/-- Remove a property from a bag (used to express "as if the field had been
omitted" in the defaulting claims). -/
def removeArg (b : ArgBag) (k : String) : ArgBag :=
  b.filter (fun p => p.1 != k)

/-- One outbound call to the Remote Call Client: endpoint path, HTTP method,
and the normalized JSON payload. -/
structure ApiCall where
  endpoint : String
  method : String
  body : List (String × JVal)

/-! ## Handler request builders (src/handlers.ts)

Each `...Request` function embeds the prefix of the corresponding handler:
the required-parameter validation (when the handler has any) followed by the
construction of the `apiClient.callApi` invocation. `Except.error` models a
thrown `Error`; an error outcome means control never reaches the `callApi`
call site, i.e. no network request is issued. The markdown rendering that
follows the remote call in each handler is pure presentation and is treated
separately where a claim depends on it. -/

/-- handlers.ts lines 166-175 (`handleEmbed`): the forwarded payload.
Note: no required-parameter validation is performed; `args.text` is
forwarded as-is. -/
def embedPayload (args : ArgBag) : List (String × JVal) :=
  [("text", getArg args "text"),
   ("model", (getArg args "model").orDefault (.str "amazon.titan-embed-text-v2:0")),
   ("chunk_size", (getArg args "chunk_size").orDefault (.num 512)),
   ("chunk_overlap", (getArg args "chunk_overlap").orDefault (.num 50))]

/-- handlers.ts `handleEmbed` up to its `callApi` call: unconditionally
issues `POST /embed` with `embedPayload`. -/
def embedRequest (args : ArgBag) : Except String ApiCall :=
  .ok ⟨"/embed", "POST", embedPayload args⟩

/-- handlers.ts lines 774-787 (`handleRiskClassify`): validate `action`,
then issue `POST /accelerators/risk/classify`. -/
def riskClassifyRequest (args : ArgBag) : Except String ApiCall :=
  if ¬ (getArg args "action").isNonEmptyString then
    .error "Required parameter 'action' must be a non-empty string"
  else
    .ok ⟨"/accelerators/risk/classify", "POST",
      [("action", getArg args "action"),
       ("environment", (getArg args "environment").orDefault (.str "local")),
       ("context", (getArg args "context").orDefault (.str "development"))]⟩

/-- handlers.ts lines 839-852 (`handleTaskRouting`): validate
`task_description`, then issue `POST /accelerators/agent/route`. -/
def taskRoutingRequest (args : ArgBag) : Except String ApiCall :=
  if ¬ (getArg args "task_description").isNonEmptyString then
    .error "Required parameter 'task_description' must be a non-empty string"
  else
    .ok ⟨"/accelerators/agent/route", "POST",
      [("task_description", getArg args "task_description"),
       ("top_k", (getArg args "top_k").orDefault (.num 5)),
       ("include_capabilities", (getArg args "include_capabilities").nullishDefault (.bool true))]⟩

/-- handlers.ts lines 979-993 (`handleAutoRecovery`): validate
`error_message`, then issue `POST /accelerators/recovery/attempt`. -/
def autoRecoveryRequest (args : ArgBag) : Except String ApiCall :=
  if ¬ (getArg args "error_message").isNonEmptyString then
    .error "Required parameter 'error_message' must be a non-empty string"
  else
    .ok ⟨"/accelerators/recovery/attempt", "POST",
      [("error_message", getArg args "error_message"),
       ("error_source", getArg args "error_source"),
       ("stack_trace", getArg args "stack_trace"),
       ("auto_execute", (getArg args "auto_execute").nullishDefault (.bool false))]⟩

/-- handlers.ts lines 1041-1055 (`handleResilienceExecute`): validate
`operation_id`, then issue `POST /accelerators/resilience/execute`. -/
def resilienceExecuteRequest (args : ArgBag) : Except String ApiCall :=
  if ¬ (getArg args "operation_id").isNonEmptyString then
    .error "Required parameter 'operation_id' must be a non-empty string"
  else
    .ok ⟨"/accelerators/resilience/execute", "POST",
      [("operation_id", getArg args "operation_id"),
       ("max_retries", (getArg args "max_retries").orDefault (.num 3)),
       ("base_delay_ms", (getArg args "base_delay_ms").orDefault (.num 1000)),
       ("circuit_breaker_threshold", (getArg args "circuit_breaker_threshold").orDefault (.num 5))]⟩

/-- handlers.ts lines 1104-1123 (`handleAgentMemory`): validate `operation`
then `agent_id` (in that order), then issue `POST /accelerators/agent/memory`. -/
def agentMemoryRequest (args : ArgBag) : Except String ApiCall :=
  if ¬ (getArg args "operation").isNonEmptyString then
    .error "Required parameter 'operation' must be a non-empty string"
  else if ¬ (getArg args "agent_id").isNonEmptyString then
    .error "Required parameter 'agent_id' must be a non-empty string"
  else
    .ok ⟨"/accelerators/agent/memory", "POST",
      [("operation", getArg args "operation"),
       ("agent_id", getArg args "agent_id"),
       ("key", getArg args "key"),
       ("value", getArg args "value"),
       ("namespace", (getArg args "namespace").orDefault (.str "default")),
       ("search_query", getArg args "search_query")]⟩

/-- handlers.ts lines 1170-1187 (`handleAgentTask`): validate `agent_id`
then `prompt` (in that order), then issue `POST /accelerators/agent/task`. -/
def agentTaskRequest (args : ArgBag) : Except String ApiCall :=
  if ¬ (getArg args "agent_id").isNonEmptyString then
    .error "Required parameter 'agent_id' must be a non-empty string"
  else if ¬ (getArg args "prompt").isNonEmptyString then
    .error "Required parameter 'prompt' must be a non-empty string"
  else
    .ok ⟨"/accelerators/agent/task", "POST",
      [("agent_id", getArg args "agent_id"),
       ("prompt", getArg args "prompt"),
       ("priority", (getArg args "priority").orDefault (.str "normal")),
       ("trace_id", getArg args "trace_id")]⟩

/-- handlers.ts lines 1266-1280 (`handleFileLock`): validate `file_path`,
then issue `POST /accelerators/lock/acquire`. -/
def fileLockRequest (args : ArgBag) : Except String ApiCall :=
  if ¬ (getArg args "file_path").isNonEmptyString then
    .error "Required parameter 'file_path' must be a non-empty string"
  else
    .ok ⟨"/accelerators/lock/acquire", "POST",
      [("file_path", getArg args "file_path"),
       ("operation", (getArg args "operation").orDefault (.str "acquire")),
       ("lock_token", getArg args "lock_token"),
       ("timeout_ms", (getArg args "timeout_ms").orDefault (.num 5000))]⟩

/-! ## ACI governance handler validation (spec-modelled)

server-setup.ts imports twelve ACI governance handlers (`handleAciClassify`
through `handleAciGovernanceHealth`) from `./handlers.js`, but their
implementation is not among the sources — only their input-shape
declarations, their dispatcher bindings, and the aci-tools test suite are.
The definitions below model their fail-fast validation stage from the
spec's shared validator pattern (assert presence and basic type of each
required field, in declaration order, failing with
`Required parameter '<field>' must be <constraint>` before the remote
call), instantiated at each operation's declared required fields; the
modelled messages agree with the ones the aci-tools test suite expects.
`aci_governance_health` declares no required fields and so has no
validation stage. An `Except.error` outcome models the throw that occurs
before the handler's `callApi` call site. -/

/-- A JavaScript `Array.isArray` test on a bag value. -/
def JVal.isArray : JVal → Bool
  | .arr _ => true
  | _ => false

/-- Modelled from the spec: the shared validator step for a required
string field — assert presence and basic type (non-empty string), failing
with the message pattern of the spec naming the exact field. -/
def requireNonEmptyString (args : ArgBag) (field : String) :
    Except String Unit :=
  if ¬ (getArg args field).isNonEmptyString then
    .error ("Required parameter '" ++ field ++ "' must be a non-empty string")
  else .ok ()

/-- Modelled from the spec: the shared validator step for a required
array field — assert presence and basic type (array), failing with the
message pattern of the spec naming the exact field. -/
def requireArray (args : ArgBag) (field : String) : Except String Unit :=
  if ¬ (getArg args field).isArray then
    .error ("Required parameter '" ++ field ++ "' must be an array")
  else .ok ()

/-- Modelled from the spec: validation stage of the missing
`handleAciClassify` (required field `action`). -/
def aciClassifyValidation (args : ArgBag) : Except String Unit :=
  requireNonEmptyString args "action"

/-- Modelled from the spec: validation stage of the missing
`handleAciFinancialGate` (required field `action`). -/
def aciFinancialGateValidation (args : ArgBag) : Except String Unit :=
  requireNonEmptyString args "action"

/-- Modelled from the spec: validation stage of the missing
`handleAciComplianceCheck` (required field `action`). -/
def aciComplianceCheckValidation (args : ArgBag) : Except String Unit :=
  requireNonEmptyString args "action"

/-- Modelled from the spec: validation stage of the missing
`handleAciRouteDomain` (required field `task_description`). -/
def aciRouteDomainValidation (args : ArgBag) : Except String Unit :=
  requireNonEmptyString args "task_description"

/-- Modelled from the spec: validation stage of the missing
`handleAciParallelReview` (required fields `action`, then the array
`reviewers`). -/
def aciParallelReviewValidation (args : ArgBag) : Except String Unit :=
  match requireNonEmptyString args "action" with
  | .error e => .error e
  | .ok _ => requireArray args "reviewers"

/-- Modelled from the spec: validation stage of the missing
`handleAciSynthesizeReviews` (required fields `review_session_id`, then
the array `reviews`). -/
def aciSynthesizeReviewsValidation (args : ArgBag) : Except String Unit :=
  match requireNonEmptyString args "review_session_id" with
  | .error e => .error e
  | .ok _ => requireArray args "reviews"

/-- Modelled from the spec: validation stage of the missing
`handleAciLogDecision` (required fields `action`, `classification`,
`reasoning`, in declaration order). -/
def aciLogDecisionValidation (args : ArgBag) : Except String Unit :=
  match requireNonEmptyString args "action" with
  | .error e => .error e
  | .ok _ =>
    match requireNonEmptyString args "classification" with
    | .error e => .error e
    | .ok _ => requireNonEmptyString args "reasoning"

/-- Modelled from the spec: validation stage of the missing
`handleAciRecallPrecedent` (required field `query`). -/
def aciRecallPrecedentValidation (args : ArgBag) : Except String Unit :=
  requireNonEmptyString args "query"

/-- Modelled from the spec: validation stage of the missing
`handleAciRecordOutcome` (required fields `decision_id`, then `outcome`).
-/
def aciRecordOutcomeValidation (args : ArgBag) : Except String Unit :=
  match requireNonEmptyString args "decision_id" with
  | .error e => .error e
  | .ok _ => requireNonEmptyString args "outcome"

/-- Modelled from the spec: validation stage of the missing
`handleAciBlastRadius` (required field `action`). -/
def aciBlastRadiusValidation (args : ArgBag) : Except String Unit :=
  requireNonEmptyString args "action"

/-- Modelled from the spec: validation stage of the missing
`handleAciRollback` (required field `action`). -/
def aciRollbackValidation (args : ArgBag) : Except String Unit :=
  requireNonEmptyString args "action"

/-! ## Remote Call Client (server-setup.ts lines 2185-2219, `createApiClient`)

`callApi` builds the request (base URL concatenation, API-key header,
serialized body), performs the fetch, parses the response body, and on a
non-2xx response throws an `Error` whose message is
`data.error?.message || "API error: <status>"`. The fetch itself is an
external collaborator; it is modelled by passing the parsed response in. -/

/-- The outbound HTTP request as `callApi` assembles it. -/
structure HttpRequest where
  url : String
  method : String
  apiKeyHeader : String
  contentType : String
  body : Option (List (String × JVal))

/-- Request assembly inside `callApi`: URL is base URL ++ endpoint, the
`X-S2T-API-Key` header carries the key, bodies are sent as JSON. -/
def buildRequest (baseUrl apiKey endpoint method : String)
    (body : Option (List (String × JVal))) : HttpRequest :=
  ⟨baseUrl ++ endpoint, method, apiKey, "application/json", body⟩

/-- The part of a parsed response body that `callApi` inspects on failure:
the conventional `error.message` field, when the JSON has one. -/
structure ParsedBody where
  errorMessage : Option String

/-- A settled fetch response as seen by `callApi`: `ok` is the 2xx test,
`status` the HTTP status code, `body` the JSON-parsed response body. -/
structure HttpResponse where
  ok : Bool
  status : Nat
  body : ParsedBody

/-- Response handling in `callApi`: a 2xx response returns the parsed data;
otherwise it throws `data.error?.message || "API error: <status>"`
(JavaScript `||`, so an empty-string message also falls back). -/
def callApi (resp : HttpResponse) : Except String ParsedBody :=
  if resp.ok then
    .ok resp.body
  else
    .error (match resp.body.errorMessage with
      | some m => if m = "" then "API error: " ++ toString resp.status else m
      | none => "API error: " ++ toString resp.status)

/-! ## Dispatcher (server-setup.ts lines 2230-2474, `createMcpServer`)

The CallTool request handler switches on the tool name over the fixed case
list below, awaits the bound handler, and wraps the outcome: a returned
string becomes a success result, any thrown failure is caught, and its
message is rewrapped as an error result. The `default` arm throws
`Unknown tool: <name>`, which the same catch rewraps. Handler bodies span
thousands of lines of response formatting, so the dispatcher is modelled
parametrically in the handler binding: each handler, given the raw
argument bag, either returns text or throws a message, and reports the
remote calls it issued along the way. -/

/-- The exact case list of the `switch (name)` statement in
`createMcpServer`'s CallTool handler. -/
def toolNames : List String :=
  ["s2t_embed", "s2t_generate_cloudformation", "s2t_validate_oauth",
   "s2t_validate_iam_policy", "s2t_validate_mfa_compliance",
   "s2t_generate_dynamodb_design", "s2t_analyze_error_patterns",
   "s2t_check_data_lake_readiness", "s2t_catalog", "s2t_usage",
   "s2t_classify_action_risk", "s2t_route_task_to_agent",
   "s2t_predict_system_issues", "s2t_attempt_auto_recovery",
   "s2t_execute_with_resilience", "s2t_manage_agent_memory",
   "s2t_submit_agent_task", "s2t_create_trace_context",
   "s2t_acquire_file_lock", "s2t_validate_cli_readiness",
   "aci_classify_decision", "aci_financial_gate", "aci_compliance_check",
   "aci_route_domain", "aci_parallel_review", "aci_synthesize_reviews",
   "aci_log_decision", "aci_recall_precedent", "aci_record_outcome",
   "aci_estimate_blast_radius", "aci_generate_rollback",
   "aci_governance_health", "s2t_interview_create", "s2t_interview_message",
   "s2t_interview_summary", "s2t_interview_list"]

/-- The uniform result envelope returned to the transport layer. Each
`content` entry models one `type: "text"` content block (its `text` field).
-/
structure CallResult where
  content : List String
  isError : Bool
  deriving Repr, DecidableEq

/-- A handler as the dispatcher sees it: from the raw argument bag to
either returned text or a thrown message, together with the remote calls
issued before settling. -/
abbrev Handler := ArgBag → Except String String × List ApiCall

/-- The CallTool dispatch path of `createMcpServer`: look the name up in
the switch's case list, run the bound handler inside the try block, wrap
success as a non-error result and any thrown message as
`Error: <message>` with `isError: true`; an unknown name throws
`Unknown tool: <name>` before any handler (and hence any remote call)
runs, and the same catch wraps it. -/
def dispatch (binding : String → Handler) (name : String) (args : ArgBag) :
    CallResult × List ApiCall :=
  if name ∈ toolNames then
    match binding name args with
    | (.ok text, calls) => (⟨[text], false⟩, calls)
    | (.error msg, calls) => (⟨["Error: " ++ msg], true⟩, calls)
  else
    (⟨["Error: " ++ ("Unknown tool: " ++ name)], true⟩, [])

/-! ## Embed response formatting (src/handlers.ts lines 177-195)

After the remote call, `handleEmbed` maps the response chunks into a result
object (which is then pretty-printed with `JSON.stringify`; the object is
what the claims are about). Chunk text is a JavaScript string; it is
modelled at character granularity as `List Char`, with `substring(0, 100)`
as `List.take 100` and `.length` as `List.length`. -/

/-- Chunk metadata of an `/embed` response (`EmbedChunk.metadata`). -/
structure EmbedChunkMeta where
  word_count : Int

/-- One chunk of an `/embed` response. -/
structure EmbedChunk where
  text : List Char
  metadata : EmbedChunkMeta

/-- Summary block of an `/embed` response. -/
structure EmbedSummary where
  total_chunks : Int
  model : String
  dimensions : Int
  processing_time_ms : Int

/-- An `/embed` response as `handleEmbed` reads it; the `usage` block is
copied into the output verbatim and is kept opaque. -/
structure EmbedResponse where
  chunks : List EmbedChunk
  summary : EmbedSummary
  usage : JVal

/-- One entry of the formatted `chunks` array built by `handleEmbed`. -/
structure EmbedChunkOut where
  index : Nat
  text_preview : List Char
  word_count : Int
  has_embedding : Bool

/-- The object `handleEmbed` passes to `JSON.stringify`. -/
structure EmbedOutput where
  summary : String
  dimensions : Int
  chunks : List EmbedChunkOut
  usage : JVal
  note : String

/-- handlers.ts lines 179-195: build the formatted embed result. Each chunk
maps (with its position `i` from the `.map((c, i) => ...)` callback) to a
preview of its first 100 characters, extended with a three-character `...`
marker exactly when the text is longer than 100 characters. -/
def formatEmbed (r : EmbedResponse) : EmbedOutput :=
  { summary := "Generated " ++ toString r.summary.total_chunks ++
      " embedding(s) using " ++ r.summary.model,
    dimensions := r.summary.dimensions,
    chunks := r.chunks.enum.map (fun p =>
      { index := p.1,
        text_preview :=
          p.2.text.take 100 ++ (if 100 < p.2.text.length then ['.', '.', '.'] else []),
        word_count := p.2.metadata.word_count,
        has_embedding := true }),
    usage := r.usage,
    note := "Full embeddings available in API response. Use for vector database indexing." }

/-! ## Streamable HTTP session binding (src/http-server.ts)

The streamable session store (`streamableTransports`) is keyed by the
server-generated session token; it is modelled as the list of live tokens.
Requests are modelled by the decisions the route handlers take on the
`mcp-session-id` header: `none` models an absent header, and JavaScript
truthiness makes an empty-string header behave like an absent one in the
`sessionId && ...` / `!sessionId && ...` tests. The fresh token produced by
`randomUUID()` is passed in as a parameter. -/

/-- The store of live streamable-HTTP session tokens. -/
abbrev SessionStore := List String

/-- Transport-level outcome of an `/mcp` route: a JSON-RPC error response
with HTTP status and error code, a request handled by an existing session,
or a freshly created session. -/
inductive McpOutcome where
  | rpcError (status : Nat) (code : Int) (message : String)
  | handledBySession (sid : String)
  | sessionCreated (sid : String)
  deriving Repr, DecidableEq

/-- The JSON-RPC error body sent by `POST /mcp` when there is neither a
known session token nor an initialize request. -/
def postRejection : McpOutcome :=
  .rpcError 400 (-32000)
    "Bad request: no valid session. Send an initialize request first."

/-- The JSON-RPC error body sent by `GET /mcp` and `DELETE /mcp` for an
invalid or missing session token. -/
def sessionRejection : McpOutcome :=
  .rpcError 400 (-32000) "Bad request: invalid or missing session ID."

/-- http-server.ts lines 150-196, `app.post("/mcp")`: a truthy known token
routes to the stored transport; an absent (or empty, hence falsy) token
with an initialize request creates a session and stores the fresh token
(via `onsessioninitialized`); anything else is rejected with the 400 /
-32000 error and no session is created. -/
def postMcp (store : SessionStore) (sessionId : Option String)
    (isInit : Bool) (fresh : String) : McpOutcome × SessionStore :=
  match sessionId with
  | some s =>
    if s ≠ "" then
      if s ∈ store then (.handledBySession s, store)
      else (postRejection, store)
    else if isInit then (.sessionCreated fresh, fresh :: store)
    else (postRejection, store)
  | none =>
    if isInit then (.sessionCreated fresh, fresh :: store)
    else (postRejection, store)

/-- http-server.ts lines 199-216, `app.get("/mcp")`: only a truthy token
present in the store reaches its transport; otherwise the uniform 400 /
-32000 rejection. The store is never modified. -/
def getMcp (store : SessionStore) (sessionId : Option String) :
    McpOutcome × SessionStore :=
  match sessionId with
  | some s =>
    if s ≠ "" ∧ s ∈ store then (.handledBySession s, store)
    else (sessionRejection, store)
  | none => (sessionRejection, store)

/-- http-server.ts lines 219-238, `app.delete("/mcp")`: a truthy known
token is routed to its transport's close path and then removed from the
store; otherwise the uniform 400 / -32000 rejection. -/
def deleteMcp (store : SessionStore) (sessionId : Option String) :
    McpOutcome × SessionStore :=
  match sessionId with
  | some s =>
    if s ≠ "" ∧ s ∈ store then (.handledBySession s, store.erase s)
    else (sessionRejection, store)
  | none => (sessionRejection, store)

/-! ## Graceful shutdown (src/http-server.ts lines 330-367, `shutdown`) -/

/-- A stored transport, reduced to the one behaviour shutdown observes:
whether its `close()` resolves (`closeOk = true`) or rejects. -/
structure Transport where
  closeOk : Bool
  deriving Repr, DecidableEq

/-- The two session stores held by the HTTP entry point. -/
structure ServerState where
  streamableTransports : List (String × Transport)
  sseTransports : List (String × Transport)

/-- The close sweep of `shutdown`: for every stored streamable transport,
`close()` is invoked and its settled outcome recorded; each promise carries
its own `.catch`, so a rejection is logged as that entry's outcome and the
sweep continues with the remaining entries. -/
def closeSweep : List (String × Transport) → List (String × Bool)
  | [] => []
  | (sid, t) :: rest => (sid, t.closeOk) :: closeSweep rest

/-- http-server.ts `shutdown`: await the settlement of every close in the
sweep (`Promise.allSettled`), then clear the streamable store
unconditionally, then clear the legacy SSE store. Returns the per-session
close outcomes and the final state. -/
def shutdown (st : ServerState) : List (String × Bool) × ServerState :=
  (closeSweep st.streamableTransports, ⟨[], []⟩)

/-! ## Cross-origin policy (src/http-server.ts lines 102-140) -/

/-- The character sequence following the first `://` separator, or `none`
when there is no such separator (an origin the URL constructor rejects). -/
def afterSchemeSep : List Char → Option (List Char)
  | ':' :: '/' :: '/' :: rest => some rest
  | _ :: rest => afterSchemeSep rest
  | [] => none

/-- The hostname component of an origin string, standing in for the WHATWG
`new URL(origin).hostname` of a well-formed `scheme://host[:port][/...]`
origin; `none` models the constructor throwing on an invalid origin. -/
def hostnameOf (origin : String) : Option String :=
  (afterSchemeSep origin.data).map (fun rest =>
    String.mk (rest.takeWhile (fun ch => ch != '/' && ch != ':')))

/-- JavaScript `s.endsWith(pat)`, at character granularity. -/
def jsEndsWith (s pat : String) : Bool :=
  pat.data.isSuffixOf s.data

/-- http-server.ts lines 106-118, `isOriginAllowed`: requests without an
Origin header pass; an empty configured allow-list means no restriction;
otherwise accept exact matches against the allow-list, and any
`s2tconsulting.com` host or subdomain; a URL-parse failure is not allowed.
-/
def isOriginAllowed (allowedOrigins : List String) (origin : Option String) :
    Bool :=
  match origin with
  | none => true
  | some o =>
    if allowedOrigins = [] then true
    else if o ∈ allowedOrigins then true
    else
      match hostnameOf o with
      | some h => h = "s2tconsulting.com" || jsEndsWith h ".s2tconsulting.com"
      | none => false

/-- What the CORS middleware does with a request after the response
headers are set: a 204 short-circuit for OPTIONS, or hand-off to the next
route handler. -/
inductive MiddlewareStep where
  | halt (status : Nat)
  | next
  deriving Repr, DecidableEq

/-- http-server.ts lines 120-140, the `app.use` middleware: computes
whether the `Access-Control-Allow-Origin` header is emitted (first
component) and then either answers OPTIONS preflight with 204 or calls
`next()` — unconditionally, whatever `isOriginAllowed` said. -/
def corsMiddleware (allowedOrigins : List String) (origin : Option String)
    (method : String) : Bool × MiddlewareStep :=
  (isOriginAllowed allowedOrigins origin,
   if method = "OPTIONS" then .halt 204 else .next)

/-! ## Helper lemmas (shared) -/

/-- The close sweep records one settled outcome per stored transport. -/
theorem closeSweep_eq_map (l : List (String × Transport)) :
    closeSweep l = l.map (fun p => (p.1, p.2.closeOk)) := by
  induction l with
  | nil => rfl
  | cons p rest ih => cases p; simp [closeSweep, ih]

/-- Removing one property leaves every other property lookup unchanged. -/
theorem getArg_removeArg (b : ArgBag) (k k2 : String) (h : k2 ≠ k) :
    getArg (removeArg b k) k2 = getArg b k2 := by
  induction b with
  | nil => rfl
  | cons p rest ih =>
    by_cases hp : p.1 = k
    · have hp2 : ¬ (p.1 == k2) = true := by
        simp only [beq_iff_eq]
        intro hcon
        exact h (hcon ▸ hp ▸ rfl)
      simp only [removeArg, List.filter] at ih ⊢
      rw [show (p.1 != k) = false by simp [hp]]
      simpa [getArg, List.find?, hp2] using ih
    · simp only [removeArg, List.filter] at ih ⊢
      rw [show (p.1 != k) = true by simp [hp]]
      by_cases hm : (p.1 == k2) = true
      · simp [getArg, List.find?, hm]
      · simpa [getArg, List.find?, hm] using ih

/-- Looking up a property in a bag it was removed from yields `undefined`.
-/
theorem getArg_removeArg_self (b : ArgBag) (k : String) :
    getArg (removeArg b k) k = .undef := by
  induction b with
  | nil => rfl
  | cons p rest ih =>
    by_cases hp : p.1 = k
    · simp only [removeArg, List.filter] at ih ⊢
      rw [show (p.1 != k) = false by simp [hp]]
      exact ih
    · simp only [removeArg, List.filter] at ih ⊢
      rw [show (p.1 != k) = true by simp [hp]]
      simpa [getArg, List.find?, show (p.1 == k) = false by simp [hp]] using ih

/-! ## Claim theorems -/

/-- C1: for every operation name (unknown ones included) and every raw
argument bag, and whatever the bound handlers do, the dispatcher returns a
`CallResult`; when the outcome is an error the content is exactly
`Error: <message>`, a successful handler's text is wrapped with
`isError: false`, and a thrown handler failure is caught and rewrapped as
`Error: <message>` with `isError: true`. -/
theorem dispatch_never_throws (binding : String → Handler) (name : String)
    (args : ArgBag) :
    ((dispatch binding name args).1.isError = true →
      ∃ msg, (dispatch binding name args).1.content = ["Error: " ++ msg]) ∧
    (∀ text calls, name ∈ toolNames → binding name args = (.ok text, calls) →
      dispatch binding name args = (⟨[text], false⟩, calls)) ∧
    (∀ msg calls, name ∈ toolNames → binding name args = (.error msg, calls) →
      dispatch binding name args = (⟨["Error: " ++ msg], true⟩, calls)) := by
  by_cases h : name ∈ toolNames
  · rcases hb : binding name args with ⟨res, calls⟩
    cases res with
    | ok t =>
      refine ⟨?_, ?_, ?_⟩ <;> simp [dispatch, h, hb]
    | error m =>
      refine ⟨?_, ?_, ?_⟩
      · intro _
        exact ⟨m, by simp [dispatch, h, hb]⟩
      · simp [dispatch, h, hb]
      · simp [dispatch, h, hb]
  · refine ⟨?_, ?_, ?_⟩
    · intro _
      exact ⟨"Unknown tool: " ++ name, by simp [dispatch, h]⟩
    · intro text calls hmem
      exact absurd hmem h
    · intro msg calls hmem
      exact absurd hmem h

/-- Witness for C1: a handler that throws `boom` on a registered name is
rewrapped as an error result. -/
theorem dispatch_never_throws_witness :
    dispatch (fun _ _ => (Except.error "boom", [])) "s2t_embed" [] =
      (⟨["Error: boom"], true⟩, []) :=
  (dispatch_never_throws (fun _ _ => (Except.error "boom", [])) "s2t_embed"
    []).2.2 "boom" [] (by decide) rfl

/-- C4: dispatching the unknown name `s2t_does_not_exist` with any
argument bag (and whatever the bound handlers do) yields an error result
carrying `Unknown tool: s2t_does_not_exist`, and no remote call is made. -/
theorem unknown_tool_dispatch (binding : String → Handler) (args : ArgBag) :
    dispatch binding "s2t_does_not_exist" args =
      (⟨["Error: Unknown tool: s2t_does_not_exist"], true⟩, []) := by
  have h : "s2t_does_not_exist" ∉ toolNames := by decide
  simp [dispatch, h]

/-- C3 counterexample: a failing response whose body carries a present but
empty `error.message` is reported with the generic status message, not
with the (empty) `error.message` field. -/
theorem callApi_empty_message_counterexample :
    callApi ⟨false, 500, ⟨some ""⟩⟩ = .error "API error: 500" ∧
    callApi ⟨false, 500, ⟨some ""⟩⟩ ≠ .error "" := by
  refine ⟨rfl, ?_⟩
  intro hcon
  rw [show callApi ⟨false, 500, ⟨some ""⟩⟩ = .error "API error: 500" from rfl]
    at hcon
  exact absurd (Except.error.inj hcon) (by decide)

/-- C3 amended: on a non-success status, `callApi` rejects with the parsed
body's `error.message` when that field is present and non-empty, and with
`API error: <status code>` when the field is absent or empty. -/
theorem callApi_failure_message (resp : HttpResponse) (h : resp.ok = false) :
    (∀ m, resp.body.errorMessage = some m → m ≠ "" → callApi resp = .error m) ∧
    ((resp.body.errorMessage = none ∨ resp.body.errorMessage = some "") →
      callApi resp = .error ("API error: " ++ toString resp.status)) := by
  constructor
  · intro m hm hne
    simp [callApi, h, hm, hne]
  · rintro (hm | hm) <;> simp [callApi, h, hm]

/-- Witness for the amended C3: a 404 with a non-empty remote message
surfaces that message, and a 500 with no message surfaces the generic one.
-/
theorem callApi_failure_message_witness :
    callApi ⟨false, 404, ⟨some "Not found"⟩⟩ = .error "Not found" ∧
    callApi ⟨false, 500, ⟨none⟩⟩ = .error "API error: 500" :=
  ⟨(callApi_failure_message ⟨false, 404, ⟨some "Not found"⟩⟩ rfl).1
      "Not found" rfl (by decide),
   (callApi_failure_message ⟨false, 500, ⟨none⟩⟩ rfl).2 (Or.inl rfl)⟩

/-- C2 counterexample: the embedding operation declares `text` as required,
yet `handleEmbed` performs no validation: with `text` absent from the bag
it does not fail synchronously but unconditionally issues the remote call
(forwarding `text: undefined`), so the claimed fail-fast behaviour does
not hold for every operation. -/
theorem embed_no_validation_counterexample :
    embedRequest [] = .ok ⟨"/embed", "POST",
      [("text", .undef),
       ("model", .str "amazon.titan-embed-text-v2:0"),
       ("chunk_size", .num 512),
       ("chunk_overlap", .num 50)]⟩ ∧
    ∀ m, embedRequest [] ≠ Except.error m := by
  refine ⟨rfl, ?_⟩
  intro m hcon
  rw [show embedRequest [] = .ok ⟨"/embed", "POST",
      [("text", .undef),
       ("model", .str "amazon.titan-embed-text-v2:0"),
       ("chunk_size", .num 512),
       ("chunk_overlap", .num 50)]⟩ from rfl] at hcon
  cases hcon

/-- C2 amended: every handler that performs required-parameter validation
— the seven validating s2t handlers of handlers.ts (risk classification,
task routing, auto recovery, resilience execution, agent memory, agent
task submission, file lock) and the eleven ACI governance handlers with
required fields (whose missing implementation is modelled from the spec's
shared validator pattern) — fails synchronously when a field its operation
declares required is absent, with the message
`Required parameter '<field>' must be <constraint>` naming that exact
field; the `Except.error` outcome means the throw happens before the
`callApi` call site, so no remote call is issued. (Handlers with multiple
required fields check them in declaration order, so the later field's
message requires the earlier ones to be valid.) -/
theorem validated_handlers_fail_fast (b : ArgBag) :
    (getArg b "action" = .undef →
      riskClassifyRequest b =
        .error "Required parameter 'action' must be a non-empty string") ∧
    (getArg b "task_description" = .undef →
      taskRoutingRequest b =
        .error "Required parameter 'task_description' must be a non-empty string") ∧
    (getArg b "error_message" = .undef →
      autoRecoveryRequest b =
        .error "Required parameter 'error_message' must be a non-empty string") ∧
    (getArg b "operation_id" = .undef →
      resilienceExecuteRequest b =
        .error "Required parameter 'operation_id' must be a non-empty string") ∧
    (getArg b "operation" = .undef →
      agentMemoryRequest b =
        .error "Required parameter 'operation' must be a non-empty string") ∧
    ((getArg b "operation").isNonEmptyString = true →
      getArg b "agent_id" = .undef →
      agentMemoryRequest b =
        .error "Required parameter 'agent_id' must be a non-empty string") ∧
    (getArg b "agent_id" = .undef →
      agentTaskRequest b =
        .error "Required parameter 'agent_id' must be a non-empty string") ∧
    ((getArg b "agent_id").isNonEmptyString = true →
      getArg b "prompt" = .undef →
      agentTaskRequest b =
        .error "Required parameter 'prompt' must be a non-empty string") ∧
    (getArg b "file_path" = .undef →
      fileLockRequest b =
        .error "Required parameter 'file_path' must be a non-empty string") ∧
    (getArg b "action" = .undef →
      aciClassifyValidation b =
        .error "Required parameter 'action' must be a non-empty string") ∧
    (getArg b "action" = .undef →
      aciFinancialGateValidation b =
        .error "Required parameter 'action' must be a non-empty string") ∧
    (getArg b "action" = .undef →
      aciComplianceCheckValidation b =
        .error "Required parameter 'action' must be a non-empty string") ∧
    (getArg b "task_description" = .undef →
      aciRouteDomainValidation b =
        .error "Required parameter 'task_description' must be a non-empty string") ∧
    (getArg b "action" = .undef →
      aciParallelReviewValidation b =
        .error "Required parameter 'action' must be a non-empty string") ∧
    ((getArg b "action").isNonEmptyString = true →
      getArg b "reviewers" = .undef →
      aciParallelReviewValidation b =
        .error "Required parameter 'reviewers' must be an array") ∧
    (getArg b "review_session_id" = .undef →
      aciSynthesizeReviewsValidation b =
        .error "Required parameter 'review_session_id' must be a non-empty string") ∧
    ((getArg b "review_session_id").isNonEmptyString = true →
      getArg b "reviews" = .undef →
      aciSynthesizeReviewsValidation b =
        .error "Required parameter 'reviews' must be an array") ∧
    (getArg b "action" = .undef →
      aciLogDecisionValidation b =
        .error "Required parameter 'action' must be a non-empty string") ∧
    ((getArg b "action").isNonEmptyString = true →
      getArg b "classification" = .undef →
      aciLogDecisionValidation b =
        .error "Required parameter 'classification' must be a non-empty string") ∧
    ((getArg b "action").isNonEmptyString = true →
      (getArg b "classification").isNonEmptyString = true →
      getArg b "reasoning" = .undef →
      aciLogDecisionValidation b =
        .error "Required parameter 'reasoning' must be a non-empty string") ∧
    (getArg b "query" = .undef →
      aciRecallPrecedentValidation b =
        .error "Required parameter 'query' must be a non-empty string") ∧
    (getArg b "decision_id" = .undef →
      aciRecordOutcomeValidation b =
        .error "Required parameter 'decision_id' must be a non-empty string") ∧
    ((getArg b "decision_id").isNonEmptyString = true →
      getArg b "outcome" = .undef →
      aciRecordOutcomeValidation b =
        .error "Required parameter 'outcome' must be a non-empty string") ∧
    (getArg b "action" = .undef →
      aciBlastRadiusValidation b =
        .error "Required parameter 'action' must be a non-empty string") ∧
    (getArg b "action" = .undef →
      aciRollbackValidation b =
        .error "Required parameter 'action' must be a non-empty string") := by
  have hstr : ∀ f, getArg b f = .undef →
      requireNonEmptyString b f =
        .error ("Required parameter '" ++ f ++ "' must be a non-empty string") := by
    intro f h
    simp [requireNonEmptyString, h, JVal.isNonEmptyString]
  have hstrOk : ∀ f, (getArg b f).isNonEmptyString = true →
      requireNonEmptyString b f = .ok () := by
    intro f h
    simp [requireNonEmptyString, h]
  have harr : ∀ f, getArg b f = .undef →
      requireArray b f =
        .error ("Required parameter '" ++ f ++ "' must be an array") := by
    intro f h
    simp [requireArray, h, JVal.isArray]
  refine ⟨?_, ?_, ?_, ?_, ?_, ?_, ?_, ?_, ?_, ?_, ?_, ?_, ?_, ?_, ?_, ?_,
    ?_, ?_, ?_, ?_, ?_, ?_, ?_, ?_, ?_⟩
  · intro h
    simp [riskClassifyRequest, h, JVal.isNonEmptyString]
  · intro h
    simp [taskRoutingRequest, h, JVal.isNonEmptyString]
  · intro h
    simp [autoRecoveryRequest, h, JVal.isNonEmptyString]
  · intro h
    simp [resilienceExecuteRequest, h, JVal.isNonEmptyString]
  · intro h
    simp [agentMemoryRequest, h, JVal.isNonEmptyString]
  · intro h1 h2
    have hu : JVal.undef.isNonEmptyString = false := rfl
    simp [agentMemoryRequest, h1, h2, hu]
  · intro h
    simp [agentTaskRequest, h, JVal.isNonEmptyString]
  · intro h1 h2
    have hu : JVal.undef.isNonEmptyString = false := rfl
    simp [agentTaskRequest, h1, h2, hu]
  · intro h
    simp [fileLockRequest, h, JVal.isNonEmptyString]
  · intro h
    exact hstr "action" h
  · intro h
    exact hstr "action" h
  · intro h
    exact hstr "action" h
  · intro h
    exact hstr "task_description" h
  · intro h
    simp [aciParallelReviewValidation, hstr "action" h]
  · intro h1 h2
    simp [aciParallelReviewValidation, hstrOk "action" h1,
      harr "reviewers" h2]
  · intro h
    simp [aciSynthesizeReviewsValidation, hstr "review_session_id" h]
  · intro h1 h2
    simp [aciSynthesizeReviewsValidation, hstrOk "review_session_id" h1,
      harr "reviews" h2]
  · intro h
    simp [aciLogDecisionValidation, hstr "action" h]
  · intro h1 h2
    simp [aciLogDecisionValidation, hstrOk "action" h1,
      hstr "classification" h2]
  · intro h1 h2 h3
    simp [aciLogDecisionValidation, hstrOk "action" h1,
      hstrOk "classification" h2, hstr "reasoning" h3]
  · intro h
    exact hstr "query" h
  · intro h
    simp [aciRecordOutcomeValidation, hstr "decision_id" h]
  · intro h1 h2
    simp [aciRecordOutcomeValidation, hstrOk "decision_id" h1,
      hstr "outcome" h2]
  · intro h
    exact hstr "action" h
  · intro h
    exact hstr "action" h

/-- Witness for the amended C2: with an empty bag the risk-classification
handler fails on `action`; with only `operation` supplied the agent-memory
handler fails on `agent_id`; the ACI classifier fails on `action` for the
empty bag, and the ACI parallel reviewer with only `action` supplied fails
on the required `reviewers` array. -/
theorem validated_handlers_fail_fast_witness :
    riskClassifyRequest [] =
      .error "Required parameter 'action' must be a non-empty string" ∧
    agentMemoryRequest [("operation", .str "store")] =
      .error "Required parameter 'agent_id' must be a non-empty string" ∧
    aciClassifyValidation [] =
      .error "Required parameter 'action' must be a non-empty string" ∧
    aciParallelReviewValidation [("action", .str "deploy service")] =
      .error "Required parameter 'reviewers' must be an array" := by
  obtain ⟨hrisk, -, -, -, -, -, -, -, -, haci, -⟩ :=
    validated_handlers_fail_fast []
  obtain ⟨-, -, -, -, -, hmem, -⟩ :=
    validated_handlers_fail_fast [("operation", .str "store")]
  obtain ⟨-, -, -, -, -, -, -, -, -, -, -, -, -, -, hpar, -⟩ :=
    validated_handlers_fail_fast [("action", .str "deploy service")]
  exact ⟨hrisk rfl, hmem rfl rfl, haci rfl, hpar rfl rfl⟩

/-- C8 counterexample: with `action` present, `environment` omitted but
`context` supplied, the forwarded payload's `environment` is `local` as
claimed, but its `context` is the supplied value, not `development`. -/
theorem risk_context_passthrough_counterexample :
    riskClassifyRequest
        [("action", .str "rm -rf /tmp/cache"), ("context", .str "ops")] =
      .ok ⟨"/accelerators/risk/classify", "POST",
        [("action", .str "rm -rf /tmp/cache"),
         ("environment", .str "local"),
         ("context", .str "ops")]⟩ ∧
    JVal.str "ops" ≠ JVal.str "development" := by
  refine ⟨rfl, ?_⟩
  intro hcon
  exact absurd (JVal.str.inj hcon) (by decide)

/-- C8 amended: a risk-classification call whose `action` is a non-empty
string and whose `environment` and `context` are both omitted forwards
`environment: "local"` and `context: "development"`; a call with `action`
missing fails with the required-parameter error, i.e. before the remote
call is attempted. -/
theorem risk_classify_defaults (b : ArgBag) :
    (∀ a, a ≠ "" → getArg b "action" = .str a →
      getArg b "environment" = .undef → getArg b "context" = .undef →
      riskClassifyRequest b = .ok ⟨"/accelerators/risk/classify", "POST",
        [("action", .str a),
         ("environment", .str "local"),
         ("context", .str "development")]⟩) ∧
    (getArg b "action" = .undef →
      riskClassifyRequest b =
        .error "Required parameter 'action' must be a non-empty string") := by
  constructor
  · intro a ha hact henv hctx
    simp [riskClassifyRequest, hact, henv, hctx, ha,
      JVal.isNonEmptyString, JVal.orDefault, JVal.truthy]
  · intro h
    simp [riskClassifyRequest, h, JVal.isNonEmptyString]

/-- Witness for the amended C8: the spec's scenario input, and the empty
bag. -/
theorem risk_classify_defaults_witness :
    riskClassifyRequest [("action", .str "rm -rf /tmp/cache")] =
      .ok ⟨"/accelerators/risk/classify", "POST",
        [("action", .str "rm -rf /tmp/cache"),
         ("environment", .str "local"),
         ("context", .str "development")]⟩ ∧
    riskClassifyRequest [] =
      .error "Required parameter 'action' must be a non-empty string" :=
  ⟨(risk_classify_defaults [("action", .str "rm -rf /tmp/cache")]).1
      "rm -rf /tmp/cache" (by decide) rfl rfl rfl,
   (risk_classify_defaults []).2 rfl⟩

/-- C10: `handleEmbed` applies its optional defaults by JavaScript
truthiness, not by omission: an explicitly supplied `chunk_overlap` of `0`
is replaced by the default `50`, and the forwarded payload is exactly the
one produced when the field is omitted; likewise any falsy `model` or
`chunk_size` is replaced by its default. -/
theorem embed_falsy_defaults (b : ArgBag) :
    (getArg b "chunk_overlap" = .num 0 →
      getArg (embedPayload b) "chunk_overlap" = .num 50 ∧
      embedPayload b = embedPayload (removeArg b "chunk_overlap")) ∧
    ((getArg b "model").truthy = false →
      getArg (embedPayload b) "model" = .str "amazon.titan-embed-text-v2:0") ∧
    ((getArg b "chunk_size").truthy = false →
      getArg (embedPayload b) "chunk_size" = .num 512) := by
  refine ⟨?_, ?_, ?_⟩
  · intro h
    have h0 := h
    simp only [getArg] at h0
    constructor
    · simp [embedPayload, getArg, List.find?, h0, JVal.orDefault, JVal.truthy]
    · have ht := getArg_removeArg b "chunk_overlap" "text" (by decide)
      have hm := getArg_removeArg b "chunk_overlap" "model" (by decide)
      have hc := getArg_removeArg b "chunk_overlap" "chunk_size" (by decide)
      have hr := getArg_removeArg_self b "chunk_overlap"
      simp [embedPayload, ht, hm, hc, hr, h, JVal.orDefault, JVal.truthy]
  · intro h
    have h0 := h
    simp only [getArg] at h0
    simp [embedPayload, getArg, List.find?, JVal.orDefault, h0]
  · intro h
    have h0 := h
    simp only [getArg] at h0
    simp [embedPayload, getArg, List.find?, JVal.orDefault, h0]

/-- Witness for C10: an explicit `chunk_overlap: 0` alongside the text is
forwarded as `chunk_overlap: 50`, exactly as when the field is absent. -/
theorem embed_falsy_defaults_witness :
    getArg (embedPayload [("text", .str "hi"), ("chunk_overlap", .num 0)])
        "chunk_overlap" = .num 50 ∧
    embedPayload [("text", .str "hi"), ("chunk_overlap", .num 0)] =
      embedPayload
        (removeArg [("text", .str "hi"), ("chunk_overlap", .num 0)]
          "chunk_overlap") :=
  (embed_falsy_defaults [("text", .str "hi"), ("chunk_overlap", .num 0)]).1 rfl

/-- C5: creating a streamable session stores its fresh token `t`; the
explicit `DELETE /mcp` termination with `t` routes to the session's close
path and removes `t` from the store; afterwards `POST /mcp` and `GET /mcp`
requests bearing `t` receive the same HTTP 400 / JSON-RPC -32000 rejection
as requests bearing any token that was never issued. -/
theorem session_terminate_lifecycle (store : SessionStore) (t : String)
    (ht : t ≠ "") (hfresh : t ∉ store) (isInit2 : Bool) (f2 : String) :
    (postMcp store none true t).1 = .sessionCreated t ∧
    (postMcp store none true t).2 = t :: store ∧
    (deleteMcp (t :: store) (some t)).1 = .handledBySession t ∧
    (deleteMcp (t :: store) (some t)).2 = store ∧
    t ∉ (deleteMcp (t :: store) (some t)).2 ∧
    postMcp store (some t) isInit2 f2 = (postRejection, store) ∧
    getMcp store (some t) = (sessionRejection, store) ∧
    (∀ u, u ≠ "" → u ∉ store →
      postMcp store (some u) isInit2 f2 = postMcp store (some t) isInit2 f2 ∧
      getMcp store (some u) = getMcp store (some t)) := by
  have hdel : (deleteMcp (t :: store) (some t)).2 = store := by
    simp [deleteMcp, ht, List.erase_cons_head]
  have hpost : ∀ u, u ≠ "" → u ∉ store →
      postMcp store (some u) isInit2 f2 = (postRejection, store) := by
    intro u hu humem
    simp [postMcp, hu, humem]
  have hget : ∀ u, u ≠ "" → u ∉ store →
      getMcp store (some u) = (sessionRejection, store) := by
    intro u hu humem
    simp [getMcp, hu, humem]
  refine ⟨by simp [postMcp], by simp [postMcp],
    by simp [deleteMcp, ht], hdel, by rw [hdel]; exact hfresh,
    hpost t ht hfresh, hget t ht hfresh, ?_⟩
  intro u hu humem
  rw [hpost u hu humem, hget u hu humem, hpost t ht hfresh, hget t ht hfresh]
  exact ⟨rfl, rfl⟩

/-- Witness for C5: a concrete create / terminate / stale-reuse sequence
starting from the empty store. -/
theorem session_terminate_lifecycle_witness :
    (postMcp [] none true "tok").1 = .sessionCreated "tok" ∧
    (postMcp [] none true "tok").2 = ["tok"] ∧
    (deleteMcp ["tok"] (some "tok")).1 = .handledBySession "tok" ∧
    (deleteMcp ["tok"] (some "tok")).2 = [] ∧
    "tok" ∉ (deleteMcp ["tok"] (some "tok")).2 ∧
    postMcp [] (some "tok") true "other" = (postRejection, []) ∧
    getMcp [] (some "tok") = (sessionRejection, []) ∧
    (∀ u, u ≠ "" → u ∉ ([] : SessionStore) →
      postMcp [] (some u) true "other" = postMcp [] (some "tok") true "other" ∧
      getMcp [] (some u) = getMcp [] (some "tok")) :=
  session_terminate_lifecycle [] "tok" (by decide) (by simp) true "other"

/-- C6: running the shutdown coordinator records a settled close outcome
for every transport in the streamable session store — one entry per stored
session, with each entry keeping its own success/failure outcome, so no
single rejection prevents the close attempt of any other — and afterwards
both the streamable store and the legacy SSE store are empty, regardless
of the individual outcomes. -/
theorem shutdown_closes_all_and_clears (st : ServerState) :
    ((shutdown st).1.map Prod.fst = st.streamableTransports.map Prod.fst) ∧
    (∀ sid tr, (sid, tr) ∈ st.streamableTransports →
      (sid, tr.closeOk) ∈ (shutdown st).1) ∧
    (shutdown st).2.streamableTransports = [] ∧
    (shutdown st).2.sseTransports = [] := by
  refine ⟨?_, ?_, rfl, rfl⟩
  · show (closeSweep st.streamableTransports).map Prod.fst = _
    rw [closeSweep_eq_map, List.map_map]
    rfl
  · intro sid tr hmem
    show _ ∈ closeSweep st.streamableTransports
    rw [closeSweep_eq_map]
    exact List.mem_map_of_mem _ hmem

/-- Witness for C6: two open sessions, one of which fails to close; both
closes are attempted and both stores end up empty. -/
theorem shutdown_closes_all_and_clears_witness :
    ("s2", true) ∈
      (shutdown ⟨[("s1", ⟨false⟩), ("s2", ⟨true⟩)], [("c1", ⟨true⟩)]⟩).1 ∧
    ("s1", false) ∈
      (shutdown ⟨[("s1", ⟨false⟩), ("s2", ⟨true⟩)], [("c1", ⟨true⟩)]⟩).1 ∧
    (shutdown
        ⟨[("s1", ⟨false⟩), ("s2", ⟨true⟩)],
         [("c1", ⟨true⟩)]⟩).2.streamableTransports = [] ∧
    (shutdown
        ⟨[("s1", ⟨false⟩), ("s2", ⟨true⟩)], [("c1", ⟨true⟩)]⟩).2.sseTransports = [] :=
  ⟨(shutdown_closes_all_and_clears _).2.1 "s2" ⟨true⟩ (by simp),
   (shutdown_closes_all_and_clears _).2.1 "s1" ⟨false⟩ (by simp),
   (shutdown_closes_all_and_clears _).2.2.1,
   (shutdown_closes_all_and_clears _).2.2.2⟩

/-- C7 counterexample: with a configured allow-list, a request whose
Origin is declared and not allowed is denied the CORS header by
`isOriginAllowed`, yet the middleware still hands the request to the next
route handler — it does reach session creation and lookup, contradicting
the claim that such requests are stopped before any session logic. -/
theorem cors_disallowed_origin_counterexample :
    isOriginAllowed ["https://app.example.com"] (some "https://evil.com") =
      false ∧
    (corsMiddleware ["https://app.example.com"] (some "https://evil.com")
        "POST").2 = MiddlewareStep.next := by
  constructor
  · decide
  · rfl

/-- C7 amended: the middleware checks every request's Origin against the
allow-list (exact match, or an `s2tconsulting.com` host or subdomain)
before any session logic runs, but only to decide whether the
`Access-Control-Allow-Origin` header is emitted: every non-OPTIONS request
— allowed Origin or not — proceeds to the route handlers, and with no
allow-list configured every Origin is allowed. -/
theorem cors_policy (allowedOrigins : List String) (origin : Option String)
    (method : String) :
    (method ≠ "OPTIONS" →
      (corsMiddleware allowedOrigins origin method).2 = .next) ∧
    (method = "OPTIONS" →
      (corsMiddleware allowedOrigins origin method).2 = .halt 204) ∧
    ((corsMiddleware allowedOrigins origin method).1 =
      isOriginAllowed allowedOrigins origin) ∧
    (allowedOrigins = [] → isOriginAllowed allowedOrigins origin = true) ∧
    (origin = none → isOriginAllowed allowedOrigins origin = true) ∧
    (∀ o, origin = some o → o ∈ allowedOrigins →
      isOriginAllowed allowedOrigins origin = true) ∧
    (∀ o h, origin = some o → hostnameOf o = some h →
      jsEndsWith h ".s2tconsulting.com" = true →
      isOriginAllowed allowedOrigins origin = true) := by
  refine ⟨?_, ?_, rfl, ?_, ?_, ?_, ?_⟩
  · intro hm
    simp [corsMiddleware, hm]
  · intro hm
    simp [corsMiddleware, hm]
  · intro ha
    cases origin <;> simp [isOriginAllowed, ha]
  · intro ho
    simp [isOriginAllowed, ho]
  · intro o ho hmem
    by_cases ha : allowedOrigins = [] <;> simp [isOriginAllowed, ho, ha, hmem]
  · intro o h ho hh hs
    by_cases ha : allowedOrigins = []
    · simp [isOriginAllowed, ho, ha]
    · by_cases hmem : o ∈ allowedOrigins
      · simp [isOriginAllowed, ho, ha, hmem]
      · simp [isOriginAllowed, ho, ha, hmem, hh, hs]

/-- Witness for the amended C7: a disallowed-origin POST still proceeds;
an allow-listed origin and a subdomain of the wildcard domain are allowed;
an unset allow-list allows an arbitrary origin. -/
theorem cors_policy_witness :
    (corsMiddleware ["https://app.example.com"] (some "https://evil.com")
        "POST").2 = .next ∧
    isOriginAllowed ["https://app.example.com"]
        (some "https://app.example.com") = true ∧
    isOriginAllowed ["https://app.example.com"]
        (some "https://dev.s2tconsulting.com") = true ∧
    isOriginAllowed [] (some "https://evil.com") = true :=
  ⟨(cors_policy ["https://app.example.com"] (some "https://evil.com")
      "POST").1 (by decide),
   (cors_policy ["https://app.example.com"] (some "https://app.example.com")
      "POST").2.2.2.2.2.1 "https://app.example.com" rfl (by simp),
   (cors_policy ["https://app.example.com"]
      (some "https://dev.s2tconsulting.com") "POST").2.2.2.2.2.2
      "https://dev.s2tconsulting.com" "dev.s2tconsulting.com" rfl (by decide)
      (by decide),
   (cors_policy [] (some "https://evil.com") "POST").2.2.2.1 rfl⟩

/-- C9: in the formatted embed output, every chunk whose text exceeds 100
characters gets a `text_preview` of exactly its first 100 characters plus
the three-character `...` marker (103 characters in total), chunks of at
most 100 characters are emitted whole, and the emitted `index` fields are
`0, 1, 2, ...` in response order. -/
theorem embed_chunk_preview (r : EmbedResponse) (i : Nat) (c : EmbedChunk)
    (h : r.chunks[i]? = some c) :
    ((formatEmbed r).chunks.map (fun o => o.index) =
      List.range r.chunks.length) ∧
    ∃ o, (formatEmbed r).chunks[i]? = some o ∧ o.index = i ∧
      (100 < c.text.length →
        o.text_preview = c.text.take 100 ++ ['.', '.', '.'] ∧
        o.text_preview.length = 103) ∧
      (c.text.length ≤ 100 → o.text_preview = c.text) := by
  constructor
  · show (r.chunks.enum.map _).map _ = _
    rw [List.map_map]
    exact List.enum_map_fst r.chunks
  · refine ⟨⟨i, c.text.take 100 ++
        (if 100 < c.text.length then ['.', '.', '.'] else []),
        c.metadata.word_count, true⟩, ?_, rfl, ?_, ?_⟩
    · show (r.chunks.enum.map _)[i]? = _
      rw [List.getElem?_map, List.getElem?_enum, h]
      rfl
    · intro h100
      rw [if_pos h100]
      refine ⟨rfl, ?_⟩
      simp [List.length_take, Nat.min_eq_left (Nat.le_of_lt h100)]
    · intro h100
      rw [if_neg (by omega), List.append_nil]
      exact List.take_of_length_le h100

/-- A sample remote embed response with a single 150-character chunk, as
in the spec's embedding scenario. -/
def sampleEmbedResponse : EmbedResponse :=
  ⟨[⟨List.replicate 150 'A', ⟨20⟩⟩],
   ⟨1, "amazon.titan-embed-text-v2:0", 1024, 42⟩, .null⟩

/-- Witness for C9: the 150-character scenario chunk yields a preview of
100 `A`s plus `...`, 103 characters in total, at index 0. -/
theorem embed_chunk_preview_witness :
    ∃ o, (formatEmbed sampleEmbedResponse).chunks[0]? = some o ∧
      o.index = 0 ∧
      o.text_preview = List.replicate 100 'A' ++ ['.', '.', '.'] ∧
      o.text_preview.length = 103 := by
  obtain ⟨-, o, ho, hidx, htrunc, -⟩ :=
    embed_chunk_preview sampleEmbedResponse 0
      ⟨List.replicate 150 'A', ⟨20⟩⟩ rfl
  have h1 := htrunc (by simp)
  refine ⟨o, ho, hidx, ?_, h1.2⟩
  rw [h1.1]
  simp [List.take_replicate]

end S2T
